import Mathlib

/-!
Verification development for the performance-prediction client scripts.

The repository ships four browser submit handlers (three variants in
src/static/script.js, one in src/unnamed/part_000).  Each handler
intercepts the prediction form submission, posts the form data to the
/predict endpoint, and writes the outcome into page elements.  We embed
each handler as a pure function from the fetch outcome (network failure,
or an HTTP status plus raw body string) to a trace of DOM events, and a
DOM state transformer that folds the trace.

Modelling notes.
JSON numbers are modelled as rationals; the scripts never perform
arithmetic on them, only string rendering, and every value our JSON
parser produces has a terminating decimal expansion, so the rendering is
exact.  The JavaScript NaN produced by parseFloat on an unparseable
string is modelled as Option.none.  JSON documents are modelled flat: a
top-level scalar, an array of scalars, or an object whose field values
are scalars, which covers the response shape the spec gives, namely an
object with optional prediction and error fields.  Browser generated
exception texts (fetch rejection, JSON parse failure) are modelled as
fixed strings; only their lack of the HTTP status digits matters below.
Property access on a non-null non-object document yields none,
modelling the undefined of JavaScript; a property read on a parsed null
root instead throws a TypeError, modelled as a fixed message naming the
property, which the handlers guard for at each dereference site.  For
the payload invariant a second, fuller number model extends parseFloat
with the Infinity results JavaScript produces, together with the per
field rendering JSON.stringify applies to the payload, where a non
finite number serializes as null.
-/

/-- A scalar JSON value as produced by JSON.parse. -/
inductive JVal where
  | null
  | bool (b : Bool)
  | num (q : Rat)
  | str (s : String)
deriving DecidableEq, Repr

/-- A parsed JSON document: a scalar, an array of scalars, or an object
whose field values are scalars. -/
inductive JDoc where
  | val (v : JVal)
  | arr (elems : List JVal)
  | obj (fields : List (String × JVal))
deriving DecidableEq, Repr

/-- JSON whitespace. -/
def jsWs (c : Char) : Bool :=
  c = ' ' || c = '\n' || c = '\t' || c = '\r'

/-- Drop leading whitespace characters. -/
def skipWs : List Char → List Char
  | [] => []
  | c :: cs => if jsWs c then skipWs cs else c :: cs

/-- Decimal digit test. -/
def isDigitCh (c : Char) : Bool := '0' ≤ c && c ≤ '9'

/-- Value of a decimal digit character. -/
def digVal (c : Char) : Nat := c.toNat - 48

/-- Split a maximal run of decimal digits off the front. -/
def takeDigits : List Char → List Nat × List Char
  | [] => ([], [])
  | c :: cs =>
    if isDigitCh c then
      let p := takeDigits cs
      (digVal c :: p.1, p.2)
    else ([], c :: cs)

/-- The natural number denoted by a digit run, most significant first. -/
def natOfDigits (ds : List Nat) : Nat := ds.foldl (fun a d => a * 10 + d) 0

/-- The rational denoted by sign, integer digits, fraction digits and a
decimal exponent: the digit string scaled by a power of ten. -/
def decimalRat (neg : Bool) (ip fp : List Nat) (ex : Int) : Rat :=
  let m : Nat := natOfDigits (ip ++ fp)
  let e : Int := ex - fp.length
  let mi : Int := if neg then -(m : Int) else (m : Int)
  if 0 ≤ e then mkRat (mi * ((10 ^ e.toNat : Nat) : Int)) 1
  else mkRat mi (10 ^ (-e).toNat)

/-- Consume an optional sign; true means negative.  A plus sign is
accepted, as parseFloat does. -/
def parseSign : List Char → Bool × List Char
  | [] => (false, [])
  | c :: cs =>
    if c = '-' then (true, cs)
    else if c = '+' then (false, cs)
    else (false, c :: cs)

/-- Consume an exponent marker with sign and digits when present;
otherwise consume nothing, as parseFloat does on a bare marker. -/
def parseExpPart : List Char → Int × List Char
  | [] => (0, [])
  | c :: rest =>
    if c = 'e' || c = 'E' then
      let s := parseSign rest
      let d := takeDigits s.2
      if d.1.isEmpty then (0, c :: rest)
      else ((if s.1 then -(natOfDigits d.1 : Int) else (natOfDigits d.1 : Int)), d.2)
    else (0, c :: rest)

/-- The JavaScript parseFloat builtin on the finite decimal grammar:
skip leading whitespace, optional sign, digits with optional fraction
and exponent, ignoring any trailing text; none models NaN.  The
Infinity literal is outside the model. -/
def parseFloatJS (s : String) : Option Rat :=
  let cs := skipWs s.data
  let sg := parseSign cs
  let ipp := takeDigits sg.2
  let fpp : List Nat × List Char :=
    match ipp.2 with
    | c :: rest => if c = '.' then takeDigits rest else ([], ipp.2)
    | [] => ([], [])
  if ipp.1.isEmpty && fpp.1.isEmpty then none
  else some (decimalRat sg.1 ipp.1 fpp.1 (parseExpPart fpp.2).1)

/-- Parse a JSON number: optional minus, integer digits, optional
fraction requiring at least one digit, optional exponent. -/
def parseJNum (cs : List Char) : Option (Rat × List Char) :=
  let sg : Bool × List Char :=
    match cs with
    | c :: rest => if c = '-' then (true, rest) else (false, cs)
    | [] => (false, [])
  let ipp := takeDigits sg.2
  if ipp.1.isEmpty then none
  else
    match ipp.2 with
    | c :: rest =>
      if c = '.' then
        let fpp := takeDigits rest
        if fpp.1.isEmpty then none
        else
          let ex := parseExpPart fpp.2
          some (decimalRat sg.1 ipp.1 fpp.1 ex.1, ex.2)
      else
        let ex := parseExpPart (c :: rest)
        some (decimalRat sg.1 ipp.1 [] ex.1, ex.2)
    | [] => some (decimalRat sg.1 ipp.1 [] 0, [])

/-- Parse the remainder of a JSON string after the opening quote,
handling the single character escapes. -/
def parseJStr : Nat → List Char → Option (String × List Char)
  | 0, _ => none
  | _ + 1, [] => none
  | fuel + 1, c :: cs =>
    if c = '"' then some ("", cs)
    else if c = '\\' then
      match cs with
      | [] => none
      | e :: rest =>
        let esc : Option Char :=
          if e = '"' then some '"'
          else if e = '\\' then some '\\'
          else if e = '/' then some '/'
          else if e = 'n' then some '\n'
          else if e = 't' then some '\t'
          else if e = 'r' then some '\r'
          else if e = 'b' then some (Char.ofNat 8)
          else if e = 'f' then some (Char.ofNat 12)
          else none
        match esc with
        | some ch => (parseJStr fuel rest).map (fun p => (String.mk (ch :: p.1.data), p.2))
        | none => none
    else (parseJStr fuel cs).map (fun p => (String.mk (c :: p.1.data), p.2))

/-- Consume an exact literal. -/
def dropLit : List Char → List Char → Option (List Char)
  | [], cs => some cs
  | _ :: _, [] => none
  | l :: ls, c :: cs => if c = l then dropLit ls cs else none

/-- Parse a scalar JSON value. -/
def parseScalar (fuel : Nat) (cs : List Char) : Option (JVal × List Char) :=
  match cs with
  | [] => none
  | c :: rest =>
    if c = '"' then (parseJStr fuel rest).map (fun p => (.str p.1, p.2))
    else
      match dropLit "true".data cs with
      | some r => some (.bool true, r)
      | none =>
        match dropLit "false".data cs with
        | some r => some (.bool false, r)
        | none =>
          match dropLit "null".data cs with
          | some r => some (.null, r)
          | none => (parseJNum cs).map (fun p => (.num p.1, p.2))

/-- The opening brace character. -/
def lbrace : Char := Char.ofNat 123

/-- The closing brace character. -/
def rbrace : Char := Char.ofNat 125

/-- Parse the members of a JSON object after the opening brace, up to
and including the closing brace. -/
def parseMembers : Nat → List Char → Option (List (String × JVal) × List Char)
  | 0, _ => none
  | fuel + 1, cs =>
    match skipWs cs with
    | [] => none
    | c :: rest =>
      if c = '"' then
        match parseJStr fuel rest with
        | none => none
        | some (key, r1) =>
          match skipWs r1 with
          | [] => none
          | c2 :: r2 =>
            if c2 = ':' then
              match parseScalar fuel (skipWs r2) with
              | none => none
              | some (v, r3) =>
                match skipWs r3 with
                | [] => none
                | c3 :: r4 =>
                  if c3 = ',' then
                    (parseMembers fuel r4).map (fun p => ((key, v) :: p.1, p.2))
                  else if c3 = rbrace then some ([(key, v)], r4)
                  else none
            else none
      else none

/-- Parse the elements of a JSON array after the opening bracket, up to
and including the closing bracket. -/
def parseElems : Nat → List Char → Option (List JVal × List Char)
  | 0, _ => none
  | fuel + 1, cs =>
    match parseScalar fuel (skipWs cs) with
    | none => none
    | some (v, r1) =>
      match skipWs r1 with
      | [] => none
      | c :: r2 =>
        if c = ',' then (parseElems fuel r2).map (fun p => (v :: p.1, p.2))
        else if c = ']' then some ([v], r2)
        else none

/-- Parse a top level JSON document. -/
def parseTop (fuel : Nat) (cs : List Char) : Option (JDoc × List Char) :=
  match skipWs cs with
  | [] => none
  | c :: rest =>
    if c = lbrace then
      match skipWs rest with
      | [] => none
      | c2 :: r2 =>
        if c2 = rbrace then some (.obj [], r2)
        else (parseMembers fuel (c2 :: r2)).map (fun p => (.obj p.1, p.2))
    else if c = '[' then
      match skipWs rest with
      | [] => none
      | c2 :: r2 =>
        if c2 = ']' then some (.arr [], r2)
        else (parseElems fuel (c2 :: r2)).map (fun p => (.arr p.1, p.2))
    else (parseScalar fuel (c :: rest)).map (fun p => (.val p.1, p.2))

/-- JSON.parse on a response body: a full parse with only whitespace
allowed after the document; none models the thrown SyntaxError. -/
def parseJson (s : String) : Option JDoc :=
  match parseTop (s.length + 1) s.data with
  | some (d, rest) => if skipWs rest = [] then some d else none
  | none => none

/-- Render the digits of a proper fraction rem / den. -/
def fracDigitsAux : Nat → Nat → Nat → List Char
  | 0, _, _ => []
  | fuel + 1, rem, den =>
    if rem = 0 then []
    else Char.ofNat (48 + rem * 10 / den) :: fracDigitsAux fuel (rem * 10 % den) den

/-- Decimal rendering of the nonnegative fraction n / d. -/
def ratRender (n d : Nat) : String :=
  toString (n / d) ++ (if n % d = 0 then "" else "." ++ String.mk (fracDigitsAux 40 (n % d) d))

/-- Decimal rendering of a rational, as JavaScript renders the numbers
the JSON parser can produce. -/
def ratToString (q : Rat) : String :=
  if q.num < 0 then "-" ++ ratRender q.num.natAbs q.den else ratRender q.num.toNat q.den

/-- JavaScript string conversion of a scalar value, as template
literals and the Error constructor perform it. -/
def jvalToString : JVal → String
  | .null => "null"
  | .bool true => "true"
  | .bool false => "false"
  | .num q => ratToString q
  | .str s => s

/-- Look a field up in parsed object fields; a later duplicate key wins,
as in JSON.parse. -/
def lookupField (fs : List (String × JVal)) (key : String) : Option JVal :=
  fs.foldl (fun acc kv => if kv.1 = key then some kv.2 else acc) none

/-- Property access on a parsed document; none models undefined. -/
def jGet (d : JDoc) (key : String) : Option JVal :=
  match d with
  | .obj fields => lookupField fields key
  | _ => none

/-- JavaScript truthiness of a scalar value. -/
def truthy : JVal → Bool
  | .null => false
  | .bool b => b
  | .num q => q != 0
  | .str s => s != ""

/-- Truthiness of a possibly absent value; undefined is falsy. -/
def truthyOpt : Option JVal → Bool
  | none => false
  | some v => truthy v

/-- The JavaScript expression x or-else fallback as used in the display
strings: the stringified value when truthy, otherwise the fallback. -/
def jsOrStr (x : Option JVal) (fallback : String) : String :=
  match x with
  | some v => if truthy v then jvalToString v else fallback
  | none => fallback

/-- The outcome of the fetch call: a rejected promise (network failure)
or a response carrying an HTTP status and the raw body text. -/
inductive FetchResult where
  | networkError
  | response (status : Nat) (body : String)
deriving DecidableEq, Repr

/-- The ok flag of a fetch response: status in the 2xx range. -/
def okStatus (status : Nat) : Bool := 200 ≤ status && status < 300

/-- Browser message of a rejected fetch promise, a fixed model string. -/
def fetchFailMsg : String := "Failed to fetch"

/-- Browser message of a JSON.parse SyntaxError, a fixed model string. -/
def jsonParseFailMsg : String := "Unexpected token in JSON"

/-- The x or-else zero coercion on a parseFloat result, as in the
expression parseFloat of value, or zero: NaN (modelled none) and zero
both give zero. -/
def jsOrZero : Option Rat → Rat
  | none => 0
  | some x => if x = 0 then 0 else x

/-- One field of the JSON payload of the second script.js variant: the
field named name keeps its text, every other field is coerced with
parseFloat or-else zero. -/
def coerceField (key value : String) : JVal :=
  if key = "name" then .str value else .num (jsOrZero (parseFloatJS value))

/-- The jsonData object the second script.js variant builds from the
form entries.  FormData iteration order is preserved; an HTML form has
one entry per control name here. -/
def buildJsonData (fields : List (String × String)) : List (String × JVal) :=
  fields.map (fun kv => (kv.1, coerceField kv.1 kv.2))

/-- The body attached to the POST request. -/
inductive ReqBody where
  | multipart
  | jsonBody (payload : List (String × JVal))
deriving DecidableEq, Repr

/-- One DOM effect of a handler run. -/
inductive Ev where
  | setResult (s : String)
  | setError (s : String)
  | addLoading
  | removeLoading
  | sendRequest (body : ReqBody)
deriving DecidableEq, Repr

/-- The page state the handlers mutate: the result element text, the
error element text, and the loading class on the container. -/
structure Dom where
  resultText : String
  errorText : String
  loading : Bool
deriving DecidableEq, Repr

/-- Apply one DOM effect. -/
def applyEv (d : Dom) : Ev → Dom
  | .setResult s => { d with resultText := s }
  | .setError s => { d with errorText := s }
  | .addLoading => { d with loading := true }
  | .removeLoading => { d with loading := false }
  | .sendRequest _ => d

/-- Run a trace of DOM effects from a state. -/
def runTrace (d : Dom) (t : List Ev) : Dom := t.foldl applyEv d

/-- A fresh page state with empty displays and no loading class. -/
def dom0 : Dom := { resultText := "", errorText := "", loading := false }

/-- Whether an event is the POST request itself. -/
def isSend : Ev → Bool
  | .sendRequest _ => true
  | _ => false

/-- The catch of a try block: an escaped error message is handed to the
catch clause, a normal completion keeps its effects. -/
def catchWith (b : Except String (List Ev)) (h : String → List Ev) : List Ev :=
  match b with
  | .ok evs => evs
  | .error m => h m

/-- Browser TypeError message of a property read on the null value, a
fixed model string naming the property: reading a property of a parsed
JSON null root throws instead of yielding undefined. -/
def nullReadMsg (key : String) : String :=
  "Cannot read properties of null (reading " ++ key ++ ")"

/-- Try block of the first script.js variant, lines 12 to 33: on a non
ok status read the body text and throw an HTTP error message carrying
the status and that text; otherwise parse JSON and display either the
prediction (when the field is present, undefined check) or the error
field or-else a fallback. -/
def tryBlock1 (res : FetchResult) : Except String (List Ev) :=
  match res with
  | .networkError => .error fetchFailMsg
  | .response status body =>
    if !okStatus status then
      .error ("HTTP error! Status: " ++ toString status ++ ", Message: " ++ body)
    else
      match parseJson body with
      | none => .error jsonParseFailMsg
      | some data =>
        if data = JDoc.val JVal.null then .error (nullReadMsg "prediction")
        else
          match jGet data "prediction" with
          | some p => .ok [.setResult ("Prediction: " ++ jvalToString p)]
          | none => .ok [.setResult ("Error: " ++ jsOrStr (jGet data "error") "No prediction available")]

/-- Submit handler of the first script.js variant, lines 5 to 39: write
Processing, send the multipart request, then run the try block; a caught
error is rendered as Error colon message into the result element. -/
def handler1 (res : FetchResult) : List Ev :=
  [.setResult "Processing...", .sendRequest .multipart] ++
    catchWith (tryBlock1 res) (fun m => [.setResult ("Error: " ++ m)])

/-- Submit handler of the third script.js variant, lines 88 to 114: the
same flow as the first variant but with no Processing state. -/
def handler3 (res : FetchResult) : List Ev :=
  [.sendRequest .multipart] ++
    catchWith (tryBlock1 res) (fun m => [.setResult ("Error: " ++ m)])

/-- Catch display of the second script.js variant, line 78. -/
def genericFailMsg : String := "An error occurred while processing your request."

/-- Try block of the second script.js variant, lines 58 to 75: on a non
ok status throw HTTP Error colon status; otherwise parse JSON and test
the prediction field for truthiness, so a falsy prediction falls to the
error display. -/
def tryBlock2 (res : FetchResult) : Except String (List Ev) :=
  match res with
  | .networkError => .error fetchFailMsg
  | .response status body =>
    if !okStatus status then
      .error ("HTTP Error: " ++ toString status)
    else
      match parseJson body with
      | none => .error jsonParseFailMsg
      | some data =>
        if data = JDoc.val JVal.null then .error (nullReadMsg "prediction")
        else
          match jGet data "prediction" with
          | some p =>
            if truthy p then .ok [.setResult ("Predicted Final Marks: " ++ jvalToString p)]
            else .ok [.setResult ("Error: " ++ jsOrStr (jGet data "error") "Unexpected error occurred")]
          | none => .ok [.setResult ("Error: " ++ jsOrStr (jGet data "error") "Unexpected error occurred")]

/-- Submit handler of the second script.js variant, lines 46 to 82:
write Processing, add the loading class, send the coerced JSON payload,
run the try block with a catch that displays a fixed generic message,
and remove the loading class in the finally clause. -/
def handler2 (fields : List (String × String)) (res : FetchResult) : List Ev :=
  [.setResult "Processing...", .addLoading, .sendRequest (.jsonBody (buildJsonData fields))] ++
    catchWith (tryBlock2 res) (fun _ => [.setResult genericFailMsg]) ++
    [.removeLoading]

/-- Try block of the part_000 variant, lines 15 to 33: parse the body
as JSON before the ok check, so an unparseable body throws the parse
error even for a non ok status; a non ok status throws the error field
or-else a generic status message; a present prediction goes to the
result element, otherwise the error element is written. -/
def tryBlock0 (res : FetchResult) : Except String (List Ev) :=
  match res with
  | .networkError => .error fetchFailMsg
  | .response status body =>
    match parseJson body with
    | none => .error jsonParseFailMsg
    | some data =>
      if !okStatus status then
        if data = JDoc.val JVal.null then .error (nullReadMsg "error")
        else .error (jsOrStr (jGet data "error") ("HTTP error! status: " ++ toString status))
      else
        if data = JDoc.val JVal.null then .error (nullReadMsg "prediction")
        else
          match jGet data "prediction" with
          | some p => .ok [.setResult ("Prediction: " ++ jvalToString p)]
          | none => .ok [.setError ("Error: " ++ jsOrStr (jGet data "error") "No prediction available")]

/-- Submit handler of the part_000 variant, lines 6 to 38: clear both
display elements, send the multipart request, then run the try block; a
caught error is rendered into the dedicated error element. -/
def handler0 (res : FetchResult) : List Ev :=
  [.setResult "", .setError "", .sendRequest .multipart] ++
    catchWith (tryBlock0 res) (fun m => [.setError ("Error: " ++ m)])

/-- Whether the needle list occurs at the head of the haystack list. -/
def prefList : List Char → List Char → Bool
  | [], _ => true
  | _ :: _, [] => false
  | a :: as, b :: bs => a == b && prefList as bs

/-- Whether the needle list occurs anywhere inside the haystack list. -/
def subList : List Char → List Char → Bool
  | n, [] => prefList n []
  | n, c :: cs => prefList n (c :: cs) || subList n cs

/-- Substring test on strings. -/
def strContains (hay needle : String) : Bool := subList needle.data hay.data

/-- A JavaScript number as parseFloat can produce it, infinities
included; NaN is modelled as the none around this type. -/
inductive JsNum where
  | finite (q : Rat)
  | posInf
  | negInf
deriving DecidableEq, Repr

/-- JavaScript truthiness of a number: only zero is falsy, the
infinities are truthy. -/
def jsNumTruthy : JsNum → Bool
  | .finite q => q != 0
  | .posInf => true
  | .negInf => true

/-- The parseFloat builtin including its Infinity results: after
whitespace and sign, the Infinity literal yields a signed infinity;
every other input is read by the finite decimal grammar.  Overflow of
huge finite literals past the double range is not modelled; the
Infinity literal already realizes the non finite outcome. -/
def parseFloatFull (s : String) : Option JsNum :=
  let sg := parseSign (skipWs s.data)
  match dropLit "Infinity".data sg.2 with
  | some _ => some (if sg.1 then .negInf else .posInf)
  | none => (parseFloatJS s).map .finite

/-- The parseFloat or-else zero coercion on the full number model: NaN
(none) and zero give zero, every other number is kept, the infinities
included, since they are truthy. -/
def jsOrZeroFull : Option JsNum → JsNum
  | none => .finite 0
  | some n => if jsNumTruthy n then n else .finite 0

/-- One payload field value of the JSON payload variant under the full
number model: the name field keeps its text, any other field carries
the coerced number. -/
inductive JsField where
  | text (s : String)
  | number (n : JsNum)
deriving DecidableEq, Repr

/-- One field of the jsonData object under the full number model. -/
def coerceFieldFull (key value : String) : JsField :=
  if key = "name" then .text value else .number (jsOrZeroFull (parseFloatFull value))

/-- The rendering JSON.stringify applies to one payload value: a finite
number renders as its decimal numeral, a non finite number renders as
null, text renders quoted (string escaping elided, it plays no role
here). -/
def stringifyField : JsField → String
  | .text s => "\"" ++ s ++ "\""
  | .number (.finite q) => ratToString q
  | .number _ => "null"

/-- Body of the success scenario in the spec. -/
def samplePredBody : String := "\x7b\"prediction\": 87.5\x7d"

/-- A success body whose prediction value is the falsy number zero. -/
def sampleZeroBody : String := "\x7b\"prediction\": 0\x7d"

/-- Body of the error scenario in the spec. -/
def sampleErrBody : String := "\x7b \"error\": \"model unavailable\" \x7d"

theorem prefList_self_append (n post : List Char) : prefList n (n ++ post) = true := by
  induction n with
  | nil => rfl
  | cons a as ih => simp [prefList, ih]


theorem subList_self_append (n post : List Char) : subList n (n ++ post) = true := by
  cases n with
  | nil => cases post <;> simp [subList, prefList]
  | cons a as =>
    have h : subList (a :: as) (a :: (as ++ post)) = true := by
      simp only [subList, Bool.or_eq_true]
      exact Or.inl (prefList_self_append (a :: as) post)
    simpa using h

theorem subList_refl (n : List Char) : subList n n = true := by
  have h := subList_self_append n []
  simpa using h

theorem subList_append_left (a n h : List Char) (hs : subList n h = true) :
    subList n (a ++ h) = true := by
  induction a with
  | nil => simpa using hs
  | cons x xs ih =>
    have hx : subList n (x :: (xs ++ h)) = true := by
      cases hnn : n with
      | nil => simp [subList, prefList]
      | cons b bs =>
        simp only [subList, Bool.or_eq_true]
        exact Or.inr (hnn ▸ ih)
    simpa using hx

theorem jsOrZero_eq_getD (o : Option Rat) : jsOrZero o = o.getD 0 := by
  cases o with
  | none => rfl
  | some x => by_cases hx : x = 0 <;> simp [jsOrZero, hx]

theorem tryBlock1_cases (res : FetchResult) :
    (∃ m, tryBlock1 res = Except.error m) ∨ (∃ s, tryBlock1 res = Except.ok [Ev.setResult s]) := by
  cases res with
  | networkError => exact Or.inl ⟨fetchFailMsg, rfl⟩
  | response status body =>
    by_cases hok : okStatus status
    · cases hparse : parseJson body with
      | none => exact Or.inl ⟨jsonParseFailMsg, by simp [tryBlock1, hok, hparse]⟩
      | some data =>
        by_cases hnull : data = JDoc.val JVal.null
        · exact Or.inl ⟨nullReadMsg "prediction", by simp [tryBlock1, hok, hparse, hnull]⟩
        · cases hpred : jGet data "prediction" with
          | none =>
            exact Or.inr ⟨"Error: " ++ jsOrStr (jGet data "error") "No prediction available",
              by simp [tryBlock1, hok, hparse, hnull, hpred]⟩
          | some p =>
            exact Or.inr ⟨"Prediction: " ++ jvalToString p,
              by simp [tryBlock1, hok, hparse, hnull, hpred]⟩
    · exact Or.inl ⟨"HTTP error! Status: " ++ toString status ++ ", Message: " ++ body,
        by simp [tryBlock1, hok]⟩

theorem tryBlock2_cases (res : FetchResult) :
    (∃ m, tryBlock2 res = Except.error m) ∨ (∃ s, tryBlock2 res = Except.ok [Ev.setResult s]) := by
  cases res with
  | networkError => exact Or.inl ⟨fetchFailMsg, rfl⟩
  | response status body =>
    by_cases hok : okStatus status
    · cases hparse : parseJson body with
      | none => exact Or.inl ⟨jsonParseFailMsg, by simp [tryBlock2, hok, hparse]⟩
      | some data =>
        by_cases hnull : data = JDoc.val JVal.null
        · exact Or.inl ⟨nullReadMsg "prediction", by simp [tryBlock2, hok, hparse, hnull]⟩
        · cases hpred : jGet data "prediction" with
          | none =>
            exact Or.inr ⟨"Error: " ++ jsOrStr (jGet data "error") "Unexpected error occurred",
              by simp [tryBlock2, hok, hparse, hnull, hpred]⟩
          | some p =>
            by_cases ht : truthy p
            · exact Or.inr ⟨"Predicted Final Marks: " ++ jvalToString p,
                by simp [tryBlock2, hok, hparse, hnull, hpred, ht]⟩
            · exact Or.inr ⟨"Error: " ++ jsOrStr (jGet data "error") "Unexpected error occurred",
                by simp [tryBlock2, hok, hparse, hnull, hpred, ht]⟩
    · exact Or.inl ⟨"HTTP Error: " ++ toString status, by simp [tryBlock2, hok]⟩

theorem tryBlock0_cases (res : FetchResult) :
    (∃ m, tryBlock0 res = Except.error m) ∨ (∃ s, tryBlock0 res = Except.ok [Ev.setResult s])
      ∨ (∃ s, tryBlock0 res = Except.ok [Ev.setError s]) := by
  cases res with
  | networkError => exact Or.inl ⟨fetchFailMsg, rfl⟩
  | response status body =>
    cases hparse : parseJson body with
    | none => exact Or.inl ⟨jsonParseFailMsg, by simp [tryBlock0, hparse]⟩
    | some data =>
      by_cases hok : okStatus status
      · by_cases hnull : data = JDoc.val JVal.null
        · exact Or.inl ⟨nullReadMsg "prediction", by simp [tryBlock0, hok, hparse, hnull]⟩
        · cases hpred : jGet data "prediction" with
          | none =>
            exact Or.inr (Or.inr ⟨"Error: " ++ jsOrStr (jGet data "error") "No prediction available",
              by simp [tryBlock0, hok, hparse, hnull, hpred]⟩)
          | some p =>
            exact Or.inr (Or.inl ⟨"Prediction: " ++ jvalToString p,
              by simp [tryBlock0, hok, hparse, hnull, hpred]⟩)
      · by_cases hnull : data = JDoc.val JVal.null
        · exact Or.inl ⟨nullReadMsg "error", by simp [tryBlock0, hok, hparse, hnull]⟩
        · exact Or.inl ⟨jsOrStr (jGet data "error") ("HTTP error! status: " ++ toString status),
            by simp [tryBlock0, hok, hparse, hnull]⟩

theorem handler1_shape (res : FetchResult) :
    ∃ s, handler1 res
      = [Ev.setResult "Processing...", Ev.sendRequest .multipart, Ev.setResult s] := by
  rcases tryBlock1_cases res with ⟨m, hm⟩ | ⟨s, hs⟩
  · exact ⟨"Error: " ++ m, by simp [handler1, catchWith, hm]⟩
  · exact ⟨s, by simp [handler1, catchWith, hs]⟩

theorem handler3_shape (res : FetchResult) :
    ∃ s, handler3 res = [Ev.sendRequest .multipart, Ev.setResult s] := by
  rcases tryBlock1_cases res with ⟨m, hm⟩ | ⟨s, hs⟩
  · exact ⟨"Error: " ++ m, by simp [handler3, catchWith, hm]⟩
  · exact ⟨s, by simp [handler3, catchWith, hs]⟩

theorem handler2_shape (fields : List (String × String)) (res : FetchResult) :
    ∃ s, handler2 fields res
      = [Ev.setResult "Processing...", Ev.addLoading,
         Ev.sendRequest (.jsonBody (buildJsonData fields)), Ev.setResult s, Ev.removeLoading] := by
  rcases tryBlock2_cases res with ⟨m, hm⟩ | ⟨s, hs⟩
  · exact ⟨genericFailMsg, by simp [handler2, catchWith, hm]⟩
  · exact ⟨s, by simp [handler2, catchWith, hs]⟩

theorem handler0_shape (res : FetchResult) :
    (∃ s, handler0 res
        = [Ev.setResult "", Ev.setError "", Ev.sendRequest .multipart, Ev.setResult s])
      ∨ (∃ s, handler0 res
        = [Ev.setResult "", Ev.setError "", Ev.sendRequest .multipart, Ev.setError s]) := by
  rcases tryBlock0_cases res with ⟨m, hm⟩ | ⟨s, hs⟩ | ⟨s, hs⟩
  · exact Or.inr ⟨"Error: " ++ m, by simp [handler0, catchWith, hm]⟩
  · exact Or.inl ⟨s, by simp [handler0, catchWith, hs]⟩
  · exact Or.inr ⟨s, by simp [handler0, catchWith, hs]⟩

/-- C4: in the JSON payload variant, the payload built at submit time
maps the field named name to its raw text value unchanged, and maps
every other field to the number parseFloat yields on its value, or to
zero when the value is unparseable. -/
theorem c4_payload_coercion (fields : List (String × String)) :
    buildJsonData fields = fields.map (fun kv =>
      (kv.1, if kv.1 = "name" then JVal.str kv.2
             else JVal.num ((parseFloatJS kv.2).getD 0))) := by
  simp only [buildJsonData, coerceField, jsOrZero_eq_getD]

/-- C9 as stated is false of the program: parseFloat keeps an Infinity
result, which is truthy and survives the or-else zero coercion, and
JSON.stringify serializes a non finite number as null, so the serialized
body carries null for that field, not a number. -/
theorem c9_counterexample :
    parseFloatFull "Infinity" = some JsNum.posInf
    ∧ coerceFieldFull "marks" "Infinity" = JsField.number JsNum.posInf
    ∧ stringifyField (coerceFieldFull "marks" "Infinity") = "null" := by
  decide

/-- C9 amended: every payload field other than name is a JavaScript
number and never NaN, the or-else zero coercion replacing NaN (and a
parsed zero) with the number zero; but the number can be an infinity,
which JSON.stringify serializes as null, so only a field whose
parseFloat result is finite or NaN serializes as a decimal numeral; on
such fields the full model agrees with the payload the handler
embedding sends. -/
theorem c9_amended :
    (∀ k v : String, k ≠ "name" → ∃ n, coerceFieldFull k v = JsField.number n)
    ∧ (∀ k v : String, k ≠ "name" → parseFloatFull v = none →
        coerceFieldFull k v = JsField.number (JsNum.finite 0))
    ∧ (∀ (k v : String) (q : Rat), k ≠ "name" → parseFloatFull v = some (JsNum.finite q) →
        ∃ q2 : Rat, coerceFieldFull k v = JsField.number (JsNum.finite q2)
          ∧ stringifyField (coerceFieldFull k v) = ratToString q2
          ∧ coerceField k v = JVal.num q2) := by
  refine ⟨?_, ?_, ?_⟩
  · intro k v hk
    exact ⟨jsOrZeroFull (parseFloatFull v), by simp [coerceFieldFull, hk]⟩
  · intro k v hk hpf
    simp [coerceFieldFull, hk, hpf, jsOrZeroFull]
  · intro k v q hk hpf
    have hjs : parseFloatJS v = some q := by
      simp only [parseFloatFull] at hpf
      cases hd : dropLit "Infinity".data (parseSign (skipWs v.data)).2 with
      | none =>
        rw [hd] at hpf
        cases hp : parseFloatJS v with
        | none => rw [hp] at hpf; simp at hpf
        | some qq => rw [hp] at hpf; simp at hpf; rw [hpf]
      | some r =>
        rw [hd] at hpf
        cases hsg : (parseSign (skipWs v.data)).1 <;> simp [hsg] at hpf
    by_cases hq : q = 0
    · refine ⟨0, ?_, ?_, ?_⟩
      · simp [coerceFieldFull, hk, hpf, jsOrZeroFull, jsNumTruthy, hq]
      · simp [coerceFieldFull, hk, hpf, jsOrZeroFull, jsNumTruthy, hq, stringifyField]
      · simp [coerceField, hk, hjs, jsOrZero, hq]
    · refine ⟨q, ?_, ?_, ?_⟩
      · simp [coerceFieldFull, hk, hpf, jsOrZeroFull, jsNumTruthy, hq]
      · simp [coerceFieldFull, hk, hpf, jsOrZeroFull, jsNumTruthy, hq, stringifyField]
      · simp [coerceField, hk, hjs, jsOrZero, hq]

/-- Witness for C9: an unparseable value coerces to the number zero and
a parseable finite value serializes as its decimal numeral. -/
theorem c9_witness :
    parseFloatFull "abc" = none
    ∧ coerceFieldFull "marks" "abc" = JsField.number (JsNum.finite 0)
    ∧ parseFloatFull "77.5" = some (JsNum.finite (mkRat 155 2))
    ∧ stringifyField (coerceFieldFull "marks" "77.5") = ratToString (mkRat 155 2) := by
  refine ⟨by decide, c9_amended.2.1 "marks" "abc" (by decide) (by decide), by decide, ?_⟩
  obtain ⟨q2, h1, h2, _h3⟩ := c9_amended.2.2 "marks" "77.5" (mkRat 155 2) (by decide) (by decide)
  have hq2 : JsField.number (JsNum.finite q2)
      = JsField.number (JsNum.finite (mkRat 155 2)) :=
    h1.symm.trans (by decide)
  have hq2e : q2 = mkRat 155 2 := by
    simpa using hq2
  rw [h2, hq2e]

/-- C5: in the loading indicator variant, the loading class added at the
start of a submission is removed on every exit path: the final state has
no loading class, the trace does add the class, and the very last effect
of the handler is its removal. -/
theorem c5_loading_always_cleared (d : Dom) (fields : List (String × String)) (res : FetchResult) :
    (runTrace d (handler2 fields res)).loading = false
    ∧ Ev.addLoading ∈ handler2 fields res
    ∧ (handler2 fields res).getLast? = some Ev.removeLoading := by
  obtain ⟨s, hs⟩ := handler2_shape fields res
  rw [hs]
  refine ⟨?_, ?_, ?_⟩
  · simp [runTrace, applyEv]
  · simp
  · rfl

/-- C8: the displayed result after a submission is a function of the
form fields and the backend response alone, independent of the previous
page state; two identical submissions receiving identical responses
therefore display the same text, in every variant. -/
theorem c8_deterministic_display (d d' : Dom) (fields : List (String × String))
    (res : FetchResult) :
    (runTrace d (handler1 res)).resultText = (runTrace d' (handler1 res)).resultText
    ∧ (runTrace d (handler2 fields res)).resultText = (runTrace d' (handler2 fields res)).resultText
    ∧ (runTrace d (handler3 res)).resultText = (runTrace d' (handler3 res)).resultText
    ∧ (runTrace d (handler0 res)).resultText = (runTrace d' (handler0 res)).resultText
    ∧ (runTrace d (handler0 res)).errorText = (runTrace d' (handler0 res)).errorText := by
  refine ⟨?_, ?_, ?_, ?_, ?_⟩
  · obtain ⟨s, hs⟩ := handler1_shape res
    rw [hs]; simp [runTrace, applyEv]
  · obtain ⟨s, hs⟩ := handler2_shape fields res
    rw [hs]; simp [runTrace, applyEv]
  · obtain ⟨s, hs⟩ := handler3_shape res
    rw [hs]; simp [runTrace, applyEv]
  · rcases handler0_shape res with ⟨s, hs⟩ | ⟨s, hs⟩ <;> rw [hs] <;> simp [runTrace, applyEv]
  · rcases handler0_shape res with ⟨s, hs⟩ | ⟨s, hs⟩ <;> rw [hs] <;> simp [runTrace, applyEv]

/-- C6: every failure of a submission (network failure, non ok status,
malformed body, missing fields) is caught inside the handler and turned
into text on a display element: each handler is a total function on
fetch outcomes whose final effect writes a display element (with the
loading removal after it in the loading variant), and every message the
try block throws is rendered rather than propagated. -/
theorem c6_failures_contained (fields : List (String × String)) (res : FetchResult) :
    (∃ s, (handler1 res).getLast? = some (Ev.setResult s))
    ∧ (∃ s, (handler3 res).getLast? = some (Ev.setResult s))
    ∧ (∃ s, (handler0 res).getLast? = some (Ev.setResult s)
        ∨ (handler0 res).getLast? = some (Ev.setError s))
    ∧ (∃ t s, handler2 fields res = t ++ [Ev.setResult s, Ev.removeLoading])
    ∧ (∀ m, tryBlock1 res = Except.error m →
        (handler1 res).getLast? = some (Ev.setResult ("Error: " ++ m))
        ∧ (handler3 res).getLast? = some (Ev.setResult ("Error: " ++ m)))
    ∧ (∀ m, tryBlock0 res = Except.error m →
        (handler0 res).getLast? = some (Ev.setError ("Error: " ++ m)))
    ∧ (∀ m, tryBlock2 res = Except.error m →
        handler2 fields res
          = [Ev.setResult "Processing...", Ev.addLoading,
             Ev.sendRequest (.jsonBody (buildJsonData fields)),
             Ev.setResult genericFailMsg, Ev.removeLoading]) := by
  refine ⟨?_, ?_, ?_, ?_, ?_, ?_, ?_⟩
  · obtain ⟨s, hs⟩ := handler1_shape res
    exact ⟨s, by rw [hs]; rfl⟩
  · obtain ⟨s, hs⟩ := handler3_shape res
    exact ⟨s, by rw [hs]; rfl⟩
  · rcases handler0_shape res with ⟨s, hs⟩ | ⟨s, hs⟩
    · exact ⟨s, Or.inl (by rw [hs]; rfl)⟩
    · exact ⟨s, Or.inr (by rw [hs]; rfl)⟩
  · obtain ⟨s, hs⟩ := handler2_shape fields res
    exact ⟨[Ev.setResult "Processing...", Ev.addLoading,
            Ev.sendRequest (.jsonBody (buildJsonData fields))], s, by rw [hs]; rfl⟩
  · intro m hm
    constructor
    · simp [handler1, catchWith, hm]
    · simp [handler3, catchWith, hm]
  · intro m hm
    simp [handler0, catchWith, hm]
  · intro m hm
    simp [handler2, catchWith, hm]

/-- Witness for C6 on a network failure: the thrown fetch rejection is
rendered into the result element. -/
theorem c6_witness :
    tryBlock1 FetchResult.networkError = Except.error fetchFailMsg
    ∧ (handler1 FetchResult.networkError).getLast?
        = some (Ev.setResult ("Error: " ++ fetchFailMsg)) :=
  ⟨rfl, ((c6_failures_contained [] FetchResult.networkError).2.2.2.2.1 fetchFailMsg rfl).1⟩

/-- C7 as stated is false: the third script.js variant issues the POST
request without ever writing a Processing state; on a concrete
submission its trace holds no such write at all, and neither does the
part_000 variant, which clears the displays instead. -/
theorem c7_counterexample :
    ¬ (Ev.setResult "Processing..." ∈ handler3 FetchResult.networkError)
    ∧ ¬ (Ev.setResult "Processing..." ∈ handler0 FetchResult.networkError) := by
  decide

/-- C7 amended: the first script.js variant writes Processing before the
request and the loading variant writes Processing and adds the loading
class; but the third variant performs no display write before the
request, and the part_000 variant clears both displays to empty text
instead of a Processing state. -/
theorem c7_amended (fields : List (String × String)) (res : FetchResult) :
    (handler1 res).takeWhile (fun e => !(isSend e)) = [Ev.setResult "Processing..."]
    ∧ (handler2 fields res).takeWhile (fun e => !(isSend e))
        = [Ev.setResult "Processing...", Ev.addLoading]
    ∧ (handler3 res).takeWhile (fun e => !(isSend e)) = []
    ∧ (handler0 res).takeWhile (fun e => !(isSend e)) = [Ev.setResult "", Ev.setError ""] := by
  refine ⟨?_, ?_, ?_, ?_⟩ <;>
    simp [handler1, handler2, handler3, handler0, List.takeWhile_cons, isSend]

/-- C1 as stated is false: on an HTTP success whose body carries the
falsy prediction value zero, the JSON payload variant tests the field
for truthiness and therefore shows its error message instead of the
label with the value. -/
theorem c1_counterexample :
    okStatus 200 = true
    ∧ parseJson sampleZeroBody = some (JDoc.obj [("prediction", JVal.num 0)])
    ∧ (runTrace dom0 (handler2 [] (FetchResult.response 200 sampleZeroBody))).resultText
        = "Error: Unexpected error occurred"
    ∧ (runTrace dom0 (handler2 [] (FetchResult.response 200 sampleZeroBody))).resultText
        ≠ "Predicted Final Marks: 0" := by
  decide

/-- C1 amended: on every HTTP success whose JSON body carries a
prediction field, the two multipart variants and the part_000 variant
set the result text to their fixed label concatenated with the value,
for every value including falsy ones; the JSON payload variant does so
exactly when the value is truthy, and shows its error text on a falsy
prediction value. -/
theorem c1_amended (status : Nat) (body : String) (data : JDoc) (p : JVal)
    (fields : List (String × String))
    (hok : okStatus status = true) (hparse : parseJson body = some data)
    (hpred : jGet data "prediction" = some p) :
    (runTrace dom0 (handler1 (FetchResult.response status body))).resultText
      = "Prediction: " ++ jvalToString p
    ∧ (runTrace dom0 (handler3 (FetchResult.response status body))).resultText
      = "Prediction: " ++ jvalToString p
    ∧ (runTrace dom0 (handler0 (FetchResult.response status body))).resultText
      = "Prediction: " ++ jvalToString p
    ∧ (truthy p = true →
        (runTrace dom0 (handler2 fields (FetchResult.response status body))).resultText
          = "Predicted Final Marks: " ++ jvalToString p)
    ∧ (truthy p = false →
        (runTrace dom0 (handler2 fields (FetchResult.response status body))).resultText
          = "Error: " ++ jsOrStr (jGet data "error") "Unexpected error occurred") := by
  have hnull : ¬ data = JDoc.val JVal.null := by
    intro h
    rw [h] at hpred
    simp [jGet] at hpred
  refine ⟨?_, ?_, ?_, ?_, ?_⟩
  · simp [handler1, tryBlock1, catchWith, hok, hparse, hnull, hpred, runTrace, applyEv]
  · simp [handler3, tryBlock1, catchWith, hok, hparse, hnull, hpred, runTrace, applyEv]
  · simp [handler0, tryBlock0, catchWith, hok, hparse, hnull, hpred, runTrace, applyEv]
  · intro ht
    simp [handler2, tryBlock2, catchWith, hok, hparse, hnull, hpred, ht, runTrace, applyEv]
  · intro ht
    simp [handler2, tryBlock2, catchWith, hok, hparse, hnull, hpred, ht, runTrace, applyEv]

/-- Witness for C1 on the spec scenario body with prediction 87.5. -/
theorem c1_witness :
    (runTrace dom0 (handler1 (FetchResult.response 200 samplePredBody))).resultText
      = "Prediction: 87.5"
    ∧ (runTrace dom0 (handler2 [("name", "Alice")] (FetchResult.response 200 samplePredBody))).resultText
      = "Predicted Final Marks: 87.5" := by
  have h := c1_amended 200 samplePredBody (JDoc.obj [("prediction", JVal.num (mkRat 175 2))])
    (JVal.num (mkRat 175 2)) [("name", "Alice")] (by decide) (by decide) (by decide)
  refine ⟨?_, ?_⟩
  · rw [h.1]; decide
  · rw [h.2.2.2.1 (by decide)]; decide

/-- C2 as stated is false: for a status 500 response whose body carries
the error string, the JSON payload variant displays its fixed generic
catch message, which contains neither the server error string nor the
status code. -/
theorem c2_counterexample :
    okStatus 500 = false
    ∧ (runTrace dom0 (handler2 [] (FetchResult.response 500 sampleErrBody))).resultText
        = genericFailMsg
    ∧ strContains (runTrace dom0 (handler2 [] (FetchResult.response 500 sampleErrBody))).resultText
        "model unavailable" = false
    ∧ strContains (runTrace dom0 (handler2 [] (FetchResult.response 500 sampleErrBody))).resultText
        "500" = false := by
  decide

/-- Falsiness of the or-else guard: an absent or falsy left operand
makes the expression yield its fallback. -/
theorem jsOrStr_of_falsy (x : Option JVal) (fb : String) (h : truthyOpt x = false) :
    jsOrStr x fb = fb := by
  cases x with
  | none => rfl
  | some v =>
    have hv : truthy v = false := by simpa [truthyOpt] using h
    simp [jsOrStr, hv]

/-- C2 amended: on a non ok response the two multipart variants display
text containing the status code and the whole raw body, hence any error
string the body carries; the part_000 variant, when the body parses as
a JSON document other than null, displays the truthy error field string
or, when the error field is absent or falsy, a message containing the
status code, while a body parsing to JSON null yields a TypeError
display naming the error property; the JSON payload variant always
displays its fixed generic catch message. -/
theorem c2_amended (status : Nat) (body : String) (fields : List (String × String))
    (hok : okStatus status = false) :
    (strContains (runTrace dom0 (handler1 (FetchResult.response status body))).resultText
        (toString status) = true
      ∧ ∀ e : String, strContains body e = true →
          strContains (runTrace dom0 (handler1 (FetchResult.response status body))).resultText
            e = true)
    ∧ (strContains (runTrace dom0 (handler3 (FetchResult.response status body))).resultText
        (toString status) = true
      ∧ ∀ e : String, strContains body e = true →
          strContains (runTrace dom0 (handler3 (FetchResult.response status body))).resultText
            e = true)
    ∧ (∀ data, parseJson body = some data → data ≠ JDoc.val JVal.null →
        (∀ v, jGet data "error" = some v → truthy v = true →
          strContains (runTrace dom0 (handler0 (FetchResult.response status body))).errorText
            (jvalToString v) = true)
        ∧ (truthyOpt (jGet data "error") = false →
          strContains (runTrace dom0 (handler0 (FetchResult.response status body))).errorText
            (toString status) = true))
    ∧ (parseJson body = some (JDoc.val JVal.null) →
        (runTrace dom0 (handler0 (FetchResult.response status body))).errorText
          = "Error: " ++ nullReadMsg "error")
    ∧ (runTrace dom0 (handler2 fields (FetchResult.response status body))).resultText
        = genericFailMsg := by
  have hr1 : (runTrace dom0 (handler1 (FetchResult.response status body))).resultText
      = "Error: " ++ ("HTTP error! Status: " ++ toString status ++ ", Message: " ++ body) := by
    simp [handler1, tryBlock1, catchWith, hok, runTrace, applyEv]
  have hr3 : (runTrace dom0 (handler3 (FetchResult.response status body))).resultText
      = "Error: " ++ ("HTTP error! Status: " ++ toString status ++ ", Message: " ++ body) := by
    simp [handler3, tryBlock1, catchWith, hok, runTrace, applyEv]
  refine ⟨⟨?_, ?_⟩, ⟨?_, ?_⟩, ?_, ?_, ?_⟩
  · rw [hr1]
    simp only [strContains, String.data_append, List.append_assoc]
    apply subList_append_left
    apply subList_append_left
    exact subList_self_append _ _
  · intro e he
    rw [hr1]
    simp only [strContains] at he
    simp only [strContains, String.data_append, List.append_assoc]
    apply subList_append_left
    apply subList_append_left
    apply subList_append_left
    apply subList_append_left
    exact he
  · rw [hr3]
    simp only [strContains, String.data_append, List.append_assoc]
    apply subList_append_left
    apply subList_append_left
    exact subList_self_append _ _
  · intro e he
    rw [hr3]
    simp only [strContains] at he
    simp only [strContains, String.data_append, List.append_assoc]
    apply subList_append_left
    apply subList_append_left
    apply subList_append_left
    apply subList_append_left
    exact he
  · intro data hparse hnn
    constructor
    · intro v he ht
      have hr0 : (runTrace dom0 (handler0 (FetchResult.response status body))).errorText
          = "Error: " ++ jvalToString v := by
        simp [handler0, tryBlock0, catchWith, hok, hparse, hnn, he, ht, jsOrStr,
          runTrace, applyEv]
      rw [hr0]
      simp only [strContains, String.data_append]
      apply subList_append_left
      exact subList_refl _
    · intro hfalsy
      have hfb : jsOrStr (jGet data "error") ("HTTP error! status: " ++ toString status)
          = "HTTP error! status: " ++ toString status := jsOrStr_of_falsy _ _ hfalsy
      have hr0 : (runTrace dom0 (handler0 (FetchResult.response status body))).errorText
          = "Error: " ++ ("HTTP error! status: " ++ toString status) := by
        simp [handler0, tryBlock0, catchWith, hok, hparse, hnn, hfb, runTrace, applyEv]
      rw [hr0]
      simp only [strContains, String.data_append, List.append_assoc]
      apply subList_append_left
      apply subList_append_left
      exact subList_refl _
  · intro hparse0
    simp [handler0, tryBlock0, catchWith, hok, hparse0, runTrace, applyEv]
  · simp [handler2, tryBlock2, catchWith, hok, runTrace, applyEv]

/-- Witness for C2 on the spec scenario: the first multipart variant
displays the raw body, so the server error string appears. -/
theorem c2_witness :
    okStatus 500 = false
    ∧ strContains sampleErrBody "model unavailable" = true
    ∧ strContains (runTrace dom0 (handler1 (FetchResult.response 500 sampleErrBody))).resultText
        "model unavailable" = true :=
  ⟨by decide, by decide,
    (c2_amended 500 sampleErrBody [] (by decide)).1.2 "model unavailable" (by decide)⟩

/-- C3 as stated is false: on a status 500 response with an unparseable
body, the JSON payload variant shows its generic catch message and the
part_000 variant shows the JSON parse failure, neither containing the
status code. -/
theorem c3_counterexample :
    parseJson "not json" = none
    ∧ strContains (runTrace dom0 (handler2 [] (FetchResult.response 500 "not json"))).resultText
        "500" = false
    ∧ strContains (runTrace dom0 (handler0 (FetchResult.response 500 "not json"))).errorText
        "500" = false := by
  decide

/-- C3 amended: on a non ok response with an unparseable body, the two
multipart variants display a message containing the status code; the
JSON payload variant displays its fixed generic message without the
status code, and the part_000 variant displays the JSON parse failure
message, also without the status code. -/
theorem c3_amended (status : Nat) (body : String) (fields : List (String × String))
    (hok : okStatus status = false) (hparse : parseJson body = none) :
    strContains (runTrace dom0 (handler1 (FetchResult.response status body))).resultText
        (toString status) = true
    ∧ strContains (runTrace dom0 (handler3 (FetchResult.response status body))).resultText
        (toString status) = true
    ∧ (runTrace dom0 (handler2 fields (FetchResult.response status body))).resultText
        = genericFailMsg
    ∧ (runTrace dom0 (handler0 (FetchResult.response status body))).errorText
        = "Error: " ++ jsonParseFailMsg := by
  refine ⟨?_, ?_, ?_, ?_⟩
  · have hr : (runTrace dom0 (handler1 (FetchResult.response status body))).resultText
        = "Error: " ++ ("HTTP error! Status: " ++ toString status ++ ", Message: " ++ body) := by
      simp [handler1, tryBlock1, catchWith, hok, runTrace, applyEv]
    rw [hr]
    simp only [strContains, String.data_append, List.append_assoc]
    apply subList_append_left
    apply subList_append_left
    exact subList_self_append _ _
  · have hr : (runTrace dom0 (handler3 (FetchResult.response status body))).resultText
        = "Error: " ++ ("HTTP error! Status: " ++ toString status ++ ", Message: " ++ body) := by
      simp [handler3, tryBlock1, catchWith, hok, runTrace, applyEv]
    rw [hr]
    simp only [strContains, String.data_append, List.append_assoc]
    apply subList_append_left
    apply subList_append_left
    exact subList_self_append _ _
  · simp [handler2, tryBlock2, catchWith, hok, runTrace, applyEv]
  · simp [handler0, tryBlock0, catchWith, hok, hparse, runTrace, applyEv]

/-- Witness for C3 on a concrete unparseable 500 response. -/
theorem c3_witness :
    okStatus 500 = false
    ∧ parseJson "not json" = none
    ∧ strContains (runTrace dom0 (handler1 (FetchResult.response 500 "not json"))).resultText
        "500" = true :=
  ⟨by decide, by decide, (c3_amended 500 "not json" [] (by decide) (by decide)).1⟩

/-- C10: in the part_000 variant every submission first clears both
displays, and each outcome writes exactly one of them: after the handler
at most one display is non empty, a successful prediction writes only
the result element, every thrown error writes only the error element,
and a success without a prediction field leaves the result element
empty. -/
theorem c10_exclusive_displays (d : Dom) (res : FetchResult) :
    ((runTrace d (handler0 res)).resultText = "" ∨ (runTrace d (handler0 res)).errorText = "")
    ∧ (∀ status body data p, res = FetchResult.response status body → okStatus status = true →
        parseJson body = some data → jGet data "prediction" = some p →
        (runTrace d (handler0 res)).errorText = ""
        ∧ (runTrace d (handler0 res)).resultText = "Prediction: " ++ jvalToString p)
    ∧ (∀ m, tryBlock0 res = Except.error m →
        (runTrace d (handler0 res)).resultText = ""
        ∧ (runTrace d (handler0 res)).errorText = "Error: " ++ m)
    ∧ (∀ status body data, res = FetchResult.response status body → okStatus status = true →
        parseJson body = some data → jGet data "prediction" = none →
        (runTrace d (handler0 res)).resultText = "") := by
  refine ⟨?_, ?_, ?_, ?_⟩
  · rcases handler0_shape res with ⟨s, hs⟩ | ⟨s, hs⟩
    · rw [hs]; right; simp [runTrace, applyEv]
    · rw [hs]; left; simp [runTrace, applyEv]
  · intro status body data p heq hok hparse hpred
    subst heq
    have hnull : ¬ data = JDoc.val JVal.null := by
      intro h
      rw [h] at hpred
      simp [jGet] at hpred
    constructor <;>
      simp [handler0, tryBlock0, catchWith, hok, hparse, hnull, hpred, runTrace, applyEv]
  · intro m hm
    constructor <;> simp [handler0, catchWith, hm, runTrace, applyEv]
  · intro status body data heq hok hparse hpred
    subst heq
    by_cases hnull : data = JDoc.val JVal.null <;>
      simp [handler0, tryBlock0, catchWith, hok, hparse, hnull, hpred, runTrace, applyEv]

/-- Witness for C10 on the success scenario body. -/
theorem c10_witness :
    (runTrace dom0 (handler0 (FetchResult.response 200 samplePredBody))).errorText = ""
    ∧ (runTrace dom0 (handler0 (FetchResult.response 200 samplePredBody))).resultText
        = "Prediction: 87.5" := by
  have h := (c10_exclusive_displays dom0 (FetchResult.response 200 samplePredBody)).2.1
    200 samplePredBody (JDoc.obj [("prediction", JVal.num (mkRat 175 2))])
    (JVal.num (mkRat 175 2)) rfl (by decide) (by decide) (by decide)
  exact ⟨h.1, by rw [h.2]; decide⟩
